import Mathlib

/-!
Verification of the DaleStudy GitHub App (Cloudflare Worker) against its
specification.  The JavaScript sources are shallowly embedded: every
`fetch`-driven interaction with the GitHub API is modelled by explicit state
passing (lists of comments, oracle worlds), and JavaScript string operations
are modelled over `List Char` so that everything reduces in the kernel.
-/

/-! ## JavaScript string primitives (modelled over `List Char`) -/

/-- `sub` occurs as a contiguous sublist of `l`. -/
def listIsInfix (sub : List Char) : List Char → Bool
  | [] => sub.isPrefixOf []
  | c :: t => sub.isPrefixOf (c :: t) || listIsInfix sub t

/-- JS `s.includes(sub)`. -/
def jsIncludes (s sub : String) : Bool :=
  listIsInfix sub.data s.data

/-- JS `s.startsWith(pre)`. -/
def jsStartsWith (s pre : String) : Bool :=
  List.isPrefixOf pre.data s.data

/-- JS `s.endsWith(suf)`. -/
def jsEndsWith (s suf : String) : Bool :=
  List.isSuffixOf suf.data s.data

/-- JS `s.trim()` (remove leading/trailing whitespace). -/
def jsTrim (s : String) : String :=
  ⟨((s.data.dropWhile Char.isWhitespace).reverse.dropWhile Char.isWhitespace).reverse⟩

/-- Drop the final `n` characters of a string (used for suffix stripping). -/
def jsDropRight (s : String) (n : Nat) : String :=
  ⟨s.data.take (s.data.length - n)⟩

/-- JS `s.toLowerCase()`. -/
def jsToLower (s : String) : String :=
  ⟨s.data.map Char.toLower⟩

/-- JS truthiness of a string-or-null/undefined value: `null`, `undefined`
and `""` are falsy, every other string is truthy. -/
def optTruthy : Option String → Bool
  | none => false
  | some s => !(s = "")

/-- JS `x || null` on a string-or-null value. -/
def jsOrNull (o : Option String) : Option String :=
  if optTruthy o then o else none

/-! ## Comment reconciler (src/utils/prWeeks.js)

An issue comment is modelled by its id, its author's `user.type` and its
body.  All GitHub comment-API calls (`list`, `create`, `delete`) are assumed
to succeed and are modelled by state passing on the PR's comment list. -/

structure IssueComment where
  id : Nat
  userType : String
  body : String
deriving Repr, DecidableEq

/-- The fixed marker substring of a warning comment. -/
def WARNING_MARKER : String := "Week 설정이 누락되었습니다"

/-- `WARNING_COMMENT_BODY` from src/utils/prWeeks.js. -/
def WARNING_COMMENT_BODY : String :=
  "## ⚠️ Week 설정이 누락되었습니다\n\n프로젝트에서 Week를 설정해주세요!\n\n### 설정 방법\n1. PR 우측의 `Projects` 섹션에서 `리트코드 스터디` 옆 드롭다운(▼) 클릭\n2. 현재 주차를 선택해주세요 (예: `Week 14(current)` 또는 `Week 14`)\n\n📚 [자세한 가이드 보기](https://github.com/DaleStudy/leetcode-study/wiki/%EB%8B%B5%EC%95%88-%EC%A0%9C%EC%B6%9C-%EA%B0%80%EC%9D%B4%EB%93%9C#pr-%EC%9E%91%EC%84%B1%EB%B2%95)\n\n---\n🤖 이 댓글은 GitHub App을 통해 자동으로 작성되었습니다."

/-- `isWarningComment` from src/utils/prWeeks.js:
author type is `Bot` and the body contains the warning marker. -/
def isWarningComment (c : IssueComment) : Bool :=
  (c.userType = "Bot") && jsIncludes c.body WARNING_MARKER

/-- The comment created by `ensureWarningComment`; GitHub records the app as
a `Bot` author and assigns a fresh id. -/
def mkWarningComment (freshId : Nat) : IssueComment :=
  ⟨freshId, "Bot", WARNING_COMMENT_BODY⟩

/-- `ensureWarningComment` from src/utils/prWeeks.js on the success path of
all API calls: list comments; if a warning comment already exists return
`false` without creating, otherwise create one (with the fresh id the
external system assigns) and return `true`. -/
def ensureWarningComment (freshId : Nat) (comments : List IssueComment) :
    Bool × List IssueComment :=
  if comments.any isWarningComment then
    (false, comments)
  else
    (true, comments ++ [mkWarningComment freshId])

/-- `removeWarningComment` from src/utils/prWeeks.js on the success path of
all API calls: list comments, find the first warning comment, and issue a
DELETE for its id (which removes the comment carrying that id); return
`false` when no warning comment is found. -/
def removeWarningComment (comments : List IssueComment) :
    Bool × List IssueComment :=
  match comments.find? isWarningComment with
  | none => (false, comments)
  | some w => (true, comments.eraseP (fun c => c.id = w.id))

/-- `handleWeekComment` from src/utils/prWeeks.js: branch on the JS
truthiness of the week value (`if (!weekValue)`), then ensure or remove the
warning comment, and return the observed week value. -/
def handleWeekComment (week : Option String) (freshId : Nat)
    (comments : List IssueComment) : Option String × List IssueComment :=
  if optTruthy week then
    (week, (removeWarningComment comments).2)
  else
    (week, (ensureWarningComment freshId comments).2)

/-! ## Week matching (src/utils/prActions.js) -/

/-- The `actualWeek.replace(/\(current\)$/, "").trim()` expression of
`matchesWeek`: strip a trailing `(current)` and trim whitespace. -/
def stripCurrent (s : String) : String :=
  jsTrim (if jsEndsWith s "(current)" then jsDropRight s 9 else s)

/-- `matchesWeek` from src/utils/prActions.js. -/
def matchesWeek (actualWeek : Option String) (expectedWeek : String) : Bool :=
  match actualWeek with
  | none => false
  | some a =>
    if a = "" then false
    else if a = expectedWeek then true
    else if jsStartsWith a (expectedWeek ++ "(") then true
    else if jsStartsWith expectedWeek (stripCurrent a) then true
    else false

/-- Modelled from the spec's words for claim C4 (third disjunct as the spec
states it: "the filter is a prefix of the actual value with the (current)
suffix stripped"), to be compared with `matchesWeek`. -/
def spec_matchesWeek (actualWeek : Option String) (expectedWeek : String) : Bool :=
  match actualWeek with
  | none => false
  | some a =>
    (a = expectedWeek) || jsStartsWith a (expectedWeek ++ "(") ||
      jsStartsWith (stripCurrent a) expectedWeek

/-! ## Mergeability polling (src/handlers/merge_prs.js) -/

/-- The PR detail fields consumed by `getMergeableState`:
`mergeable` is the REST API's tri-state (`true`/`false`/`null`),
`mergeable_state` the computed state string, `head.sha` the head commit. -/
structure PrDetails where
  mergeable : Option Bool
  mergeable_state : Option String
  head_sha : String
deriving Repr, DecidableEq

/-- The record returned by `getMergeableState`. -/
structure MergeableState where
  mergeable : Bool
  reason : Option String
  retryable : Bool
  sha : Option String
deriving Repr, DecidableEq

/-- `getMergeableState` from src/handlers/merge_prs.js.  Note the JS
expression `prDetails.mergeable_state || "unknown"` maps a missing or empty
state to `"unknown"`. -/
def getMergeableState (pd : PrDetails) : MergeableState :=
  match pd.mergeable with
  | some true =>
    let ms := match pd.mergeable_state with
      | none => "unknown"
      | some s => if s = "" then "unknown" else s
    if ms = "clean" then
      { mergeable := true, reason := none, retryable := false,
        sha := some pd.head_sha }
    else
      { mergeable := false, reason := some ms,
        retryable := (ms = "unknown" || ms = "behind"), sha := none }
  | some false =>
    { mergeable := false, reason := some "not mergeable", retryable := false,
      sha := none }
  | none =>
    { mergeable := false, reason := some "mergeability unknown",
      retryable := true, sha := none }

/-- The retry loop of `mergePrs`: while the state is not mergeable but
retryable and fewer than `MAX_RETRIES = 3` retries have happened, wait and
re-query.  `obs k` is the result of the `k`-th `getPullRequestDetails`
call; `fuel` equals `MAX_RETRIES - retries`. -/
def pollGo (obs : Nat → PrDetails) (ms : MergeableState) (retries : Nat) :
    Nat → MergeableState × Nat
  | 0 => (ms, retries)
  | fuel + 1 =>
    if !ms.mergeable && ms.retryable then
      pollGo obs (getMergeableState (obs (retries + 1))) (retries + 1) fuel
    else
      (ms, retries)

/-- The whole per-PR mergeability polling of `mergePrs`: the initial query
followed by the retry loop; returns the final state and the number of
retries performed. -/
def mergePoll (obs : Nat → PrDetails) : MergeableState × Nat :=
  pollGo obs (getMergeableState (obs 0)) 0 3

/-! ## Board field reader (src/utils/prWeeks.js, `getProjectFields`) -/

/-- One node of `fieldValues`: its GraphQL `__typename`, the `field.name`
reached through optional chaining, the iteration `title` and the
single-select `name` (each absent on the other variant). -/
structure FieldValue where
  typename : String
  fieldName : Option String
  title : Option String
  name : Option String
deriving Repr, DecidableEq

/-- One node of `projectItems` (a board-item attachment of the PR). -/
structure ProjectItem where
  fieldValues : List FieldValue
deriving Repr, DecidableEq

/-- The first guard in the loop of `getProjectFields`: an iteration-typed
value whose field name is exactly `Week`. -/
def isWeekIterField (f : FieldValue) : Bool :=
  (f.typename = "ProjectV2ItemFieldIterationValue") && (f.fieldName = some "Week")

/-- The second guard: a single-select-typed value whose field name is
exactly `Status`. -/
def isStatusSelField (f : FieldValue) : Bool :=
  (f.typename = "ProjectV2ItemFieldSingleSelectValue") && (f.fieldName = some "Status")

/-- The body of the nested loops of `getProjectFields`: each matching field
value overwrites the accumulator (`result.week = field.title`,
`result.status = field.name`). -/
def projectFieldStep (acc : Option String × Option String) (f : FieldValue) :
    Option String × Option String :=
  (if isWeekIterField f then f.title else acc.1,
   if isStatusSelField f then f.name else acc.2)

/-- `getProjectFields` from src/utils/prWeeks.js, as a function of the
board-item attachments the GraphQL query returned: fold the nested loops
over `(week, status)` starting from `(null, null)`. -/
def getProjectFields (items : List ProjectItem) : Option String × Option String :=
  items.foldl (fun acc it => it.fieldValues.foldl projectFieldStep acc) (none, none)

/-- Modelled from the spec's words for claim C6 ("the first value typed as
an iteration value whose field name is exactly Week supplies the returned
week"), to be compared with `getProjectFields`. -/
def firstMatchWeek (items : List ProjectItem) : Option String :=
  (((items.map ProjectItem.fieldValues).flatten).find? isWeekIterField).bind
    FieldValue.title

/-- The week actually returned: the last matching iteration value (first
match of the reversed flattened field-value list). -/
def lastMatchWeek (items : List ProjectItem) : Option String :=
  ((((items.map ProjectItem.fieldValues).flatten).reverse.find? isWeekIterField)).bind
    FieldValue.title

/-- The status actually returned: the last matching single-select value. -/
def lastMatchStatus (items : List ProjectItem) : Option String :=
  ((((items.map ProjectItem.fieldValues).flatten).reverse.find? isStatusSelField)).bind
    FieldValue.name

/-! ## Constants and validation (src/utils/constants.js, validation.js) -/

def ALLOWED_ORG : String := "DaleStudy"

def ALLOWED_REPO : String := "leetcode-study"

def MAINTENANCE_LABEL : String := "maintenance"

/-- `validateOrganization` from src/utils/validation.js; the argument may be
`undefined` in JS (strict equality with a string is then `false`). -/
def validateOrganization (orgName : Option String) : Bool :=
  orgName = some ALLOWED_ORG

/-- `hasMaintenanceLabel` from src/utils/validation.js. -/
def hasMaintenanceLabel (labels : List String) : Bool :=
  labels.any (fun l => l = MAINTENANCE_LABEL)

/-- `isClosedPR` from src/utils/validation.js. -/
def isClosedPR (prState : String) : Bool :=
  prState = "closed"

/-! ## Bulk-action helpers (src/utils/prActions.js) -/

/-- The JSON body of a bulk-action request; absent keys are `none`.
`excludes` is modelled as an optional list of integers (the handler's
`parseNumberArray` keeps only integer entries of a JSON array, so the
embedding takes the integer list directly). -/
structure ReqBody where
  repo_owner : Option String := none
  repo_name : Option String := none
  week : Option String := none
  excludes : Option (List Int) := none
  merge_method : Option String := none

/-- The data produced by a successful `parsePrActionPayload`. -/
structure ParsedPayload where
  repoOwner : String
  repoName : String
  week : String
  excludes : Option (List Int)
  merge_method : Option String

/-- `[...new Set(value)]` of `parseNumberArray`: deduplicate keeping the
first occurrence of each element. -/
def dedupFirstAux (seen : List Int) : List Int → List Int
  | [] => []
  | x :: t =>
    if seen.any (fun y => y = x) then dedupFirstAux seen t
    else x :: dedupFirstAux (x :: seen) t

/-- `parseNumberArray` from src/utils/prActions.js: `null` unless the value
is an array; otherwise deduplicate (integer parsing is the identity on the
integer entries modelled here). -/
def parseNumberArray (value : Option (List Int)) : Option (List Int) :=
  value.map (dedupFirstAux [])

/-- `parsePrActionPayload` from src/utils/prActions.js: default the owner to
`DaleStudy`, require `repo_name` and `week` (JS truthiness), and require the
allowed organization. -/
def parsePrActionPayload (b : ReqBody) : Except (Nat × String) ParsedPayload :=
  let repoOwner := match b.repo_owner with
    | some s => if s = "" then "DaleStudy" else s
    | none => "DaleStudy"
  match jsOrNull b.repo_name with
  | none => .error (400, "Missing required field: repo_name")
  | some repoName =>
    match jsOrNull b.week with
    | none => .error (400, "Missing required field: week (e.g., 'Week 8')")
    | some week =>
      if !(validateOrganization (some repoOwner)) then
        .error (403, "Unauthorized organization: " ++ repoOwner)
      else
        .ok ⟨repoOwner, repoName, week, parseNumberArray b.excludes, b.merge_method⟩

/-- A pull request as returned by the REST list endpoint; `week`/`status`
are the properties `filterByWeekAndStatus` later attaches to the JS object
(absent, i.e. `none`, on a freshly fetched PR). -/
structure PrObj where
  number : Nat
  title : String
  labels : List String
  draft : Bool
  week : Option String := none
  status : Option String := none
deriving Repr, DecidableEq

/-- `filterTargetPrs` from src/utils/prActions.js. -/
def filterTargetPrs (pullRequests : List PrObj) (excludes : Option (List Int)) :
    List PrObj :=
  match excludes with
  | none => pullRequests
  | some ex =>
    if ex.length = 0 then pullRequests
    else pullRequests.filter (fun pr => !(ex.any (fun n => n = (pr.number : Int))))

/-- `getSkipReason` from src/utils/prActions.js. -/
def getSkipReason (pr : PrObj) : Option String :=
  if hasMaintenanceLabel pr.labels then some "maintenance labeled"
  else if pr.draft then some "draft PR"
  else none

/-- The action-specific outcome spread into a per-PR result; absent JS keys
are `none`. -/
structure Outcome where
  skipped : Option Bool := none
  reason : Option String := none
  approved : Option Bool := none
  merged : Option Bool := none
  autoMergeEnabled : Option Bool := none
  sha : Option String := none
  error : Option String := none
deriving Repr, DecidableEq

/-- A per-PR entry of a bulk-action response (`formatResult`'s shape). -/
structure ActionResult where
  pr : Nat
  title : String
  week : Option String
  status : Option String
  outcome : Outcome
deriving Repr, DecidableEq

/-- `formatResult` from src/utils/prActions.js (`pr.week || null`,
`pr.status || null`). -/
def formatResult (pr : PrObj) (result : Outcome) : ActionResult :=
  ⟨pr.number, pr.title, jsOrNull pr.week, jsOrNull pr.status, result⟩

/-- `filterByWeekAndStatus` from src/utils/prActions.js, with the per-PR
`getProjectFields` results supplied by the oracle `fields`: attach
week/status, drop week mismatches (counted) and `Solving` PRs (counted). -/
def filterByWeekAndStatus (pullRequests : List PrObj) (weekFilter : String)
    (fields : Nat → Option String × Option String) : List PrObj × Nat × Nat :=
  match pullRequests with
  | [] => ([], 0, 0)
  | pr :: rest =>
    let f := fields pr.number
    let pr1 : PrObj := { pr with week := f.1, status := f.2 }
    let (l, m, s) := filterByWeekAndStatus rest weekFilter fields
    if !(matchesWeek f.1 weekFilter) then (l, m + 1, s)
    else if f.2 = some "Solving" then (l, m, s + 1)
    else (pr1 :: l, m, s)

/-! ## Bulk approve (src/handlers/approve_prs.js) and bulk merge
(src/handlers/merge_prs.js)

The GitHub API is an oracle world: review state, review submission results,
successive PR-detail observations, node ids and auto-merge results are
world-supplied, all calls succeeding at the transport level. -/

structure BulkWorld where
  openPrs : List PrObj
  fields : Nat → Option String × Option String
  approvedOf : Nat → Bool
  approveOk : Nat → Bool
  details : Nat → Nat → PrDetails
  nodeId : Nat → Option String
  autoMergeOk : Nat → Bool

structure ApproveSummary where
  action : String
  total_open_prs : Nat
  processed : Nat
  approved : Nat
  skipped : Nat
  results : List ActionResult
deriving Repr, DecidableEq

/-- The per-PR loop of `approvePrs` (error messages take the JS `||`
default). Returns (approved, skipped, results). -/
def approveLoop (w : BulkWorld) : List PrObj → Nat × Nat × List ActionResult
  | [] => (0, 0, [])
  | pr :: rest =>
    let (a, s, rs) := approveLoop w rest
    match getSkipReason pr with
    | some r => (a, s + 1, formatResult pr { skipped := some true, reason := some r } :: rs)
    | none =>
      if w.approvedOf pr.number then
        (a, s + 1,
          formatResult pr { skipped := some true, reason := some "already approved" } :: rs)
      else if w.approveOk pr.number then
        (a + 1, s, formatResult pr { approved := some true } :: rs)
      else
        (a, s, formatResult pr { approved := some false, error := some "Approval failed" } :: rs)

/-- `approvePrs` from src/handlers/approve_prs.js. -/
def approvePrs (b : ReqBody) (w : BulkWorld) : Except (Nat × String) ApproveSummary :=
  match parsePrActionPayload b with
  | .error e => .error e
  | .ok p =>
    let targetPrs := filterTargetPrs w.openPrs p.excludes
    let (approved, skipped, results) := approveLoop w targetPrs
    .ok ⟨"approve", w.openPrs.length, targetPrs.length, approved, skipped, results⟩

/-- `mergePullRequest` from src/handlers/merge_prs.js: resolve the node id
(`|| null`, then JS truthiness), then enable auto-merge; error messages take
the JS `||` defaults. -/
def mergePullRequest (w : BulkWorld) (prNumber : Nat) (sha : Option String) : Outcome :=
  match jsOrNull (w.nodeId prNumber) with
  | none => { merged := some false, error := some "Failed to get PR node ID" }
  | some _ =>
    if w.autoMergeOk prNumber then
      { merged := some true, autoMergeEnabled := some true, sha := sha }
    else
      { merged := some false, error := some "Auto-merge failed" }

/-- The per-PR loop of `mergePrs`: skip filter, approval requirement,
mergeability polling, then the merge call with the head SHA captured at the
last successful mergeability check. Returns (merged, skipped, results). -/
def mergeLoop (w : BulkWorld) : List PrObj → Nat × Nat × List ActionResult
  | [] => (0, 0, [])
  | pr :: rest =>
    let (mg, sk, rs) := mergeLoop w rest
    match getSkipReason pr with
    | some r => (mg, sk + 1, formatResult pr { skipped := some true, reason := some r } :: rs)
    | none =>
      if !(w.approvedOf pr.number) then
        (mg, sk + 1,
          formatResult pr { skipped := some true, reason := some "no approvals" } :: rs)
      else
        let ms := (mergePoll (w.details pr.number)).1
        if !ms.mergeable then
          (mg, sk + 1, formatResult pr { skipped := some true, reason := ms.reason } :: rs)
        else
          let out := mergePullRequest w pr.number ms.sha
          ((if out.merged = some true then mg + 1 else mg), sk, formatResult pr out :: rs)

structure MergeSummary where
  action : String
  week_filter : String
  total_open_prs : Nat
  week_matched : Nat
  week_mismatched : Nat
  solving_excluded : Nat
  processed : Nat
  merged : Nat
  skipped : Nat
  merge_method : String
  results : List ActionResult
deriving Repr, DecidableEq

/-- `mergePrs` from src/handlers/merge_prs.js. -/
def mergePrs (b : ReqBody) (w : BulkWorld) : Except (Nat × String) MergeSummary :=
  match parsePrActionPayload b with
  | .error e => .error e
  | .ok p =>
    let mergeMethod := jsToLower (match p.merge_method with
      | some s => if s = "" then "merge" else s
      | none => "merge")
    if !(mergeMethod = "merge" || mergeMethod = "squash" || mergeMethod = "rebase") then
      .error (400, "Invalid merge_method. Allowed values: merge, squash, rebase")
    else
      let (weekFilteredPrs, weekMismatched, solvingExcluded) :=
        filterByWeekAndStatus w.openPrs p.week w.fields
      let targetPrs := filterTargetPrs weekFilteredPrs p.excludes
      let (merged, skipped, results) := mergeLoop w targetPrs
      .ok ⟨"merge", p.week, w.openPrs.length, weekFilteredPrs.length, weekMismatched,
        solvingExcluded, targetPrs.length, merged, skipped, mergeMethod, results⟩

/-! ## Manual bulk check (src/handlers/check-weeks.js)

A PR of the fixture carries its number, labels, its board Week value and
its current comment list; all API calls succeed. -/

structure CwPr where
  number : Nat
  labels : List String
  week : Option String
  comments : List IssueComment
deriving Repr, DecidableEq

/-- One entry of the `results` array; the current handler never emits a
`deleted` (or `error`) key, modelled by `none`. -/
structure CwEntry where
  pr : Nat
  week : Option String
  commented : Bool
  deleted : Option Bool
deriving Repr, DecidableEq

/-- The per-PR loop of `checkWeeks`: skip (uncounted) maintenance-labeled
PRs; otherwise count the PR as checked, run `handleWeekComment`, and report
`commented: true` with `week: null` exactly when the week value is falsy.
Returns (checked, commented, deleted, results, PRs with updated comments). -/
def runCheckWeeks (freshId : Nat → Nat) :
    List CwPr → Nat × Nat × Nat × List CwEntry × List CwPr
  | [] => (0, 0, 0, [], [])
  | pr :: rest =>
    if hasMaintenanceLabel pr.labels then
      let (c, cm, d, es, ps) := runCheckWeeks freshId rest
      (c, cm, d, es, pr :: ps)
    else
      let (wk, cs) := handleWeekComment pr.week (freshId pr.number) pr.comments
      let (c, cm, d, es, ps) := runCheckWeeks freshId rest
      if optTruthy wk then
        (c + 1, cm, d, ⟨pr.number, wk, false, none⟩ :: es,
          { pr with comments := cs } :: ps)
      else
        (c + 1, cm + 1, d, ⟨pr.number, none, true, none⟩ :: es,
          { pr with comments := cs } :: ps)

structure CwSummary where
  total_prs : Nat
  checked : Nat
  commented : Nat
  deleted : Nat
  results : List CwEntry
deriving Repr, DecidableEq

/-- `checkWeeks` from src/handlers/check-weeks.js: validate the body, then
run the loop; `deletedCount` is initialised to 0 and never incremented by
this handler. -/
def checkWeeks (repo_owner repo_name : Option String) (freshId : Nat → Nat)
    (prs : List CwPr) : Except (Nat × String) (CwSummary × List CwPr) :=
  if !(optTruthy repo_owner) || !(optTruthy repo_name) then
    .error (400, "Missing required fields: repo_owner, repo_name")
  else if !(validateOrganization repo_owner) then
    .error (403, "Unauthorized organization: " ++ repo_owner.getD "")
  else
    let (c, cm, d, es, ps) := runCheckWeeks freshId prs
    .ok (⟨prs.length, c, cm, d, es⟩, ps)

/-! ## Webhook handler (src/handlers/webhooks.js)

The inbound payload's optional nested fields are modelled with `Option`;
unguarded JS property accesses on absent objects throw and surface as the
top-level 500 catch.  External lookups are an oracle world. -/

structure RepoInfo where
  name : String
  ownerLogin : String
deriving Repr, DecidableEq

structure PrPayload where
  number : Nat
  labels : List String
deriving Repr, DecidableEq

structure ChangesFieldValue where
  field_name : Option String
  from_field_name : Option String
  to_title : Option String
deriving Repr, DecidableEq

structure ProjectsV2Item where
  content_type : Option String
  content_node_id : Option String
deriving Repr, DecidableEq

structure CommentPayload where
  id : Nat
  body : String
deriving Repr, DecidableEq

structure IssuePayload where
  number : Nat
  title : String
  body : String
  is_pull_request : Bool
deriving Repr, DecidableEq

structure WPayload where
  organization_login : Option String := none
  repository : Option RepoInfo := none
  action : Option String := none
  projects_v2_item : Option ProjectsV2Item := none
  changes_field_value : Option ChangesFieldValue := none
  pull_request : Option PrPayload := none
  comment : Option CommentPayload := none
  issue : Option IssuePayload := none

/-- Live PR data fetched inside the projects_v2_item path (`none` models a
non-ok fetch response, which the handler tolerates). -/
structure PrData where
  state : String
  labels : List String
deriving Repr, DecidableEq

structure HookWorld where
  prInfo : String → Option (String × String × Nat)
  prFetch : Nat → Option PrData
  weekOf : Nat → Option String
  comments : Nat → List IssueComment
  freshId : Nat → Nat
  aiOk : Nat → Bool
  aiReviews : Nat → Nat

structure HResp where
  status : Nat
  message : String
  pr : Option Nat := none
  week : Option String := none
deriving Repr, DecidableEq

/-- Replace the comment list of one PR in the world. -/
def setComments (w : HookWorld) (n : Nat) (cs : List IssueComment) : HookWorld :=
  { w with comments := fun k => if k = n then cs else w.comments k }

/-- Record one more AI review posted on a PR. -/
def bumpAiReviews (w : HookWorld) (n : Nat) : HookWorld :=
  { w with aiReviews := fun k => if k = n then w.aiReviews k + 1 else w.aiReviews k }

/-- `handleProjectsV2ItemEvent` from src/handlers/webhooks.js. -/
def handleProjectsV2ItemEvent (p : WPayload) (w : HookWorld) : HResp × HookWorld :=
  let action := p.action
  if !(action = some "edited" || action = some "created" || action = some "deleted") then
    ({ status := 200, message := "Ignored: " ++ action.getD "undefined" }, w)
  else
    let contentType := p.projects_v2_item.bind ProjectsV2Item.content_type
    if !(contentType = some "PullRequest") then
      ({ status := 200, message := "Ignored: not a PR" }, w)
    else
      let isWeekField :=
        (p.changes_field_value.bind ChangesFieldValue.field_name = some "Week") ||
          (p.changes_field_value.bind ChangesFieldValue.from_field_name = some "Week")
      if (!(action = some "deleted") && !(action = some "created")) && !isWeekField then
        ({ status := 200, message := "Ignored: not Week field" }, w)
      else
        match jsOrNull (p.projects_v2_item.bind ProjectsV2Item.content_node_id) with
        | none => ({ status := 200, message := "Ignored: no content_node_id" }, w)
        | some nid =>
          match w.prInfo nid with
          | none => ({ status := 500, message := "Failed to get PR info" }, w)
          | some (_, _, prNumber) =>
            let earlyOut : Option HResp :=
              match w.prFetch prNumber with
              | none => none
              | some pd =>
                if isClosedPR pd.state then
                  some { status := 200, message := "Ignored: closed PR" }
                else if hasMaintenanceLabel pd.labels then
                  some { status := 200, message := "Ignored: maintenance label" }
                else none
            match earlyOut with
            | some r => (r, w)
            | none =>
              if action = some "deleted" then
                let cs := (ensureWarningComment (w.freshId prNumber) (w.comments prNumber)).2
                ({ status := 200, message := "Processed", pr := some prNumber,
                   week := none }, setComments w prNumber cs)
              else if action = some "created" then
                let r := handleWeekComment (w.weekOf prNumber) (w.freshId prNumber)
                  (w.comments prNumber)
                ({ status := 200, message := "Processed", pr := some prNumber,
                   week := r.1 }, setComments w prNumber r.2)
              else
                let weekValue := jsOrNull (p.changes_field_value.bind ChangesFieldValue.to_title)
                let cs :=
                  if optTruthy weekValue then (removeWarningComment (w.comments prNumber)).2
                  else (ensureWarningComment (w.freshId prNumber) (w.comments prNumber)).2
                ({ status := 200, message := "Processed", pr := some prNumber,
                   week := weekValue }, setComments w prNumber cs)

/-- `handlePullRequestEvent` from src/handlers/webhooks.js (the 3-second
wait is a pure delay and does not affect the state model). -/
def handlePullRequestEvent (p : WPayload) (w : HookWorld) : HResp × HookWorld :=
  if !(p.action = some "opened" || p.action = some "reopened") then
    ({ status := 200, message := "Ignored: " ++ p.action.getD "undefined" }, w)
  else
    match p.pull_request, p.repository with
    | some pr, some _ =>
      if hasMaintenanceLabel pr.labels then
        ({ status := 200, message := "Ignored: maintenance label" }, w)
      else
        let r := handleWeekComment (w.weekOf pr.number) (w.freshId pr.number)
          (w.comments pr.number)
        ({ status := 200, message := "Processed", pr := some pr.number,
           week := r.1 }, setComments w pr.number r.2)
    | _, _ => ({ status := 500, message := "Webhook error: TypeError" }, w)

/-- `handleIssueCommentEvent` from src/handlers/webhooks.js; the AI review
itself is an oracle (out of core scope per the spec), recorded in the
world's review counter when it succeeds. -/
def handleIssueCommentEvent (p : WPayload) (hasOpenAiKey : Bool) (w : HookWorld) :
    HResp × HookWorld :=
  if !(p.action = some "created") then
    ({ status := 200, message := "Ignored: " ++ p.action.getD "undefined" }, w)
  else
    match p.comment, p.issue, p.repository with
    | some c, some iss, some _ =>
      if !iss.is_pull_request then
        ({ status := 200, message := "Ignored: not a PR comment" }, w)
      else if !(jsIncludes (jsToLower c.body) "@dalestudy") then
        ({ status := 200, message := "Ignored: not mentioned" }, w)
      else if !hasOpenAiKey then
        ({ status := 200, message := "AI review not configured" }, w)
      else if w.aiOk iss.number then
        ({ status := 200, message := "AI review posted", pr := some iss.number },
          bumpAiReviews w iss.number)
      else
        ({ status := 500, message := "AI review failed" }, w)
    | _, _, _ => ({ status := 500, message := "Webhook error: TypeError" }, w)

/-- `handleWebhook` from src/handlers/webhooks.js: organization filter,
repository filter (JS truthiness of `payload.repository?.name`), then
dispatch on the event-type header. -/
def handleWebhook (eventType : String) (p : WPayload) (hasOpenAiKey : Bool)
    (w : HookWorld) : HResp × HookWorld :=
  if !(validateOrganization p.organization_login) then
    ({ status := 200, message := "Ignored: not DaleStudy organization" }, w)
  else
    let repoName := p.repository.map RepoInfo.name
    let repoBad := match repoName with
      | some n => !(n = "") && !(n = ALLOWED_REPO)
      | none => false
    if repoBad then
      ({ status := 200, message := "Ignored: " ++ repoName.getD "" }, w)
    else if eventType = "projects_v2_item" then
      handleProjectsV2ItemEvent p w
    else if eventType = "pull_request" then
      handlePullRequestEvent p w
    else if eventType = "issue_comment" then
      handleIssueCommentEvent p hasOpenAiKey w
    else
      ({ status := 200, message := "Ignored: " ++ eventType }, w)

/-! ## Lemmas about the comment reconciler -/

/-- A freshly created warning comment satisfies `isWarningComment`. -/
lemma mkWarningComment_isWarning (i : Nat) :
    isWarningComment (mkWarningComment i) = true := rfl

/-- Distinctness of comment ids, as GitHub guarantees for real comment
lists. -/
def IdsDistinct (cs : List IssueComment) : Prop :=
  cs.Pairwise (fun a b => a.id ≠ b.id)

/-- After erasing the first warning comment from a list holding at most one,
none remains. -/
lemma eraseP_isWarning_none (cs : List IssueComment)
    (h : cs.countP isWarningComment ≤ 1) :
    (cs.eraseP isWarningComment).any isWarningComment = false := by
  induction cs with
  | nil => rfl
  | cons a t ih =>
    by_cases hp : isWarningComment a = true
    · rw [List.eraseP_cons_of_pos hp]
      rw [List.countP_cons_of_pos _ _ hp] at h
      have ht : t.countP isWarningComment = 0 := by omega
      rw [List.countP_eq_zero] at ht
      simp only [List.any_eq_false]
      exact ht
    · rw [List.eraseP_cons_of_neg hp]
      rw [List.countP_cons_of_neg _ _ hp] at h
      simp only [List.any_cons, hp, Bool.false_or]
      exact ih h
  

/-- `removeWarningComment` removes exactly the first warning comment (and
nothing else) when comment ids are distinct. -/
lemma removeWarningComment_eq_eraseP (cs : List IssueComment)
    (h : IdsDistinct cs) :
    (removeWarningComment cs).2 = cs.eraseP isWarningComment := by
  induction cs with
  | nil => rfl
  | cons a t ih =>
    rw [IdsDistinct, List.pairwise_cons] at h
    obtain ⟨ha, ht⟩ := h
    by_cases hp : isWarningComment a = true
    · have hf : List.find? isWarningComment (a :: t) = some a :=
        List.find?_cons_of_pos _ hp
      simp only [removeWarningComment, hf]
      simp [List.eraseP_cons, hp]
    · have hf : List.find? isWarningComment (a :: t) = List.find? isWarningComment t :=
        List.find?_cons_of_neg _ hp
      cases hft : List.find? isWarningComment t with
      | none =>
        have hnone : List.eraseP isWarningComment t = t :=
          List.eraseP_of_forall_not (by simpa using List.find?_eq_none.mp hft)
        simp only [removeWarningComment, hf, hft]
        simp [List.eraseP_cons, hp, hnone]
      | some wc =>
        have hmem : wc ∈ t := List.mem_of_find?_eq_some hft
        have hih := ih ht
        simp only [removeWarningComment, hft] at hih
        simp only [removeWarningComment, hf, hft]
        simp [List.eraseP_cons, hp, ha wc hmem, hih]

/-- After one `removeWarningComment` on a distinct-id list carrying at most
one warning comment, no warning comment remains. -/
lemma removeWarningComment_clears (cs : List IssueComment)
    (hids : IdsDistinct cs) (hone : cs.countP isWarningComment ≤ 1) :
    ((removeWarningComment cs).2).any isWarningComment = false := by
  rw [removeWarningComment_eq_eraseP cs hids]
  exact eraseP_isWarning_none cs hone

/-- `removeWarningComment` is the identity (returning `false`) when no
warning comment exists. -/
lemma removeWarningComment_of_none (cs : List IssueComment)
    (h : cs.any isWarningComment = false) :
    removeWarningComment cs = (false, cs) := by
  have hf : cs.find? isWarningComment = none := by
    rw [List.find?_eq_none]
    intro x hx
    simp only [List.any_eq_false] at h
    exact h x hx
  simp [removeWarningComment, hf]

/-- `ensureWarningComment` always leaves a warning comment present. -/
lemma ensureWarningComment_any (freshId : Nat) (cs : List IssueComment) :
    ((ensureWarningComment freshId cs).2).any isWarningComment = true := by
  by_cases h : cs.any isWarningComment = true
  · simp [ensureWarningComment, h]
  · simp only [Bool.not_eq_true] at h
    simp [ensureWarningComment, h, mkWarningComment_isWarning]

/-- `ensureWarningComment` is the identity (returning `false`) when a
warning comment already exists. -/
lemma ensureWarningComment_of_any (freshId : Nat) (cs : List IssueComment)
    (h : cs.any isWarningComment = true) :
    ensureWarningComment freshId cs = (false, cs) := by
  simp [ensureWarningComment, h]

/-- `ensureWarningComment` never pushes the warning count above one. -/
lemma ensureWarningComment_countP (freshId : Nat) (cs : List IssueComment)
    (hone : cs.countP isWarningComment ≤ 1) :
    ((ensureWarningComment freshId cs).2).countP isWarningComment ≤ 1 := by
  by_cases h : cs.any isWarningComment = true
  · simp [ensureWarningComment, h, hone]
  · simp only [Bool.not_eq_true] at h
    have hzero : cs.countP isWarningComment = 0 := by
      rw [List.countP_eq_zero]
      intro x hx
      simp only [List.any_eq_false] at h
      exact h x hx
    simp [ensureWarningComment, h, List.countP_append, hzero,
      mkWarningComment_isWarning]

/-- Erasing is monotone on the warning count. -/
lemma removeWarningComment_countP (cs : List IssueComment)
    (hids : IdsDistinct cs) (hone : cs.countP isWarningComment ≤ 1) :
    ((removeWarningComment cs).2).countP isWarningComment ≤ 1 := by
  rw [removeWarningComment_eq_eraseP cs hids]
  exact le_trans ((List.eraseP_sublist cs).countP_le isWarningComment) hone

/-! ## Lemmas about the board field reader -/

/-- Combine `Option.or` with the `map`/`getD` accumulator reading. -/
lemma map_getD_or (o₁ o₂ : Option FieldValue) (f : FieldValue → Option String)
    (d : Option String) :
    ((o₁.or o₂).map f).getD d = ((o₁.map f).getD ((o₂.map f).getD d)) := by
  cases o₁ <;> cases o₂ <;> rfl

/-- The inner field-value loop: its week component is the title of the last
matching iteration value, defaulting to the accumulator. -/
lemma foldl_step_fst (l : List FieldValue) (acc : Option String × Option String) :
    (l.foldl projectFieldStep acc).1 =
      ((l.reverse.find? isWeekIterField).map FieldValue.title).getD acc.1 := by
  induction l generalizing acc with
  | nil => rfl
  | cons f t ih =>
    simp only [List.foldl_cons, List.reverse_cons]
    rw [ih, List.find?_append]
    cases hf : t.reverse.find? isWeekIterField with
    | some g => rfl
    | none =>
      by_cases hp : isWeekIterField f = true
      · simp [List.find?, hp, projectFieldStep]
      · simp only [Bool.not_eq_true] at hp
        simp [List.find?, hp, projectFieldStep]

/-- The inner field-value loop: its status component is the name of the last
matching single-select value, defaulting to the accumulator. -/
lemma foldl_step_snd (l : List FieldValue) (acc : Option String × Option String) :
    (l.foldl projectFieldStep acc).2 =
      ((l.reverse.find? isStatusSelField).map FieldValue.name).getD acc.2 := by
  induction l generalizing acc with
  | nil => rfl
  | cons f t ih =>
    simp only [List.foldl_cons, List.reverse_cons]
    rw [ih, List.find?_append]
    cases hf : t.reverse.find? isStatusSelField with
    | some g => rfl
    | none =>
      by_cases hp : isStatusSelField f = true
      · simp [List.find?, hp, projectFieldStep]
      · simp only [Bool.not_eq_true] at hp
        simp [List.find?, hp, projectFieldStep]

/-- The outer loop over board items, week component. -/
lemma getProjectFields_fold_fst (items : List ProjectItem)
    (acc : Option String × Option String) :
    (items.foldl (fun a it => it.fieldValues.foldl projectFieldStep a) acc).1 =
      ((((items.map ProjectItem.fieldValues).flatten).reverse.find? isWeekIterField).map
        FieldValue.title).getD acc.1 := by
  induction items generalizing acc with
  | nil => rfl
  | cons it ts ih =>
    simp only [List.foldl_cons, List.map_cons, List.flatten_cons, List.reverse_append]
    rw [ih, List.find?_append, map_getD_or, foldl_step_fst]

/-- The outer loop over board items, status component. -/
lemma getProjectFields_fold_snd (items : List ProjectItem)
    (acc : Option String × Option String) :
    (items.foldl (fun a it => it.fieldValues.foldl projectFieldStep a) acc).2 =
      ((((items.map ProjectItem.fieldValues).flatten).reverse.find? isStatusSelField).map
        FieldValue.name).getD acc.2 := by
  induction items generalizing acc with
  | nil => rfl
  | cons it ts ih =>
    simp only [List.foldl_cons, List.map_cons, List.flatten_cons, List.reverse_append]
    rw [ih, List.find?_append, map_getD_or, foldl_step_snd]

/-! ## Lemmas about the polling loop -/

/-- The retry loop performs at most `fuel` further retries. -/
lemma pollGo_le (obs : Nat → PrDetails) (ms : MergeableState) (retries fuel : Nat) :
    (pollGo obs ms retries fuel).2 ≤ retries + fuel := by
  induction fuel generalizing ms retries with
  | zero => simp [pollGo]
  | succ n ih =>
    simp only [pollGo]
    split
    · exact le_trans (ih _ _) (by omega)
    · simp

/-! ## Claim theorems -/

/-- Two warning comments on one PR (distinct ids), as can arise from the
accepted concurrent-creation race. -/
def twoWarnings : List IssueComment :=
  [⟨1, "Bot", WARNING_COMMENT_BODY⟩, ⟨2, "Bot", WARNING_COMMENT_BODY⟩]

/-- C1 counterexample: on a PR whose Week is set to `Week 8` but which
carries two warning comments, one reconciliation run (all API calls
succeeding) still leaves a warning comment present, so after the run a
warning comment exists although the week is not null. -/
theorem C1_counterexample :
    (((handleWeekComment (some "Week 8") 7 twoWarnings).2).any isWarningComment = true) ∧
    (some "Week 8" : Option String) ≠ none := by
  refine ⟨by decide, by simp⟩

/-- C1 (amended): after one reconciliation run with all API calls
succeeding, a warning comment exists iff the Week field is unset — provided
the PR's comments carry distinct ids, at most one warning comment exists
before the run, and a set week value is a non-empty string (the code
branches on JS truthiness of the week value). -/
theorem C1_invariant (week : Option String) (freshId : Nat)
    (cs : List IssueComment) (hids : IdsDistinct cs)
    (hone : cs.countP isWarningComment ≤ 1) (hw : week ≠ some "") :
    ((((handleWeekComment week freshId cs).2).any isWarningComment) = true) ↔
      week = none := by
  cases week with
  | none =>
    simp only [handleWeekComment, optTruthy, Bool.false_eq_true, if_false]
    simp [ensureWarningComment_any]
  | some s =>
    have hs : ¬(s = "") := fun h => hw (by rw [h])
    have ht : optTruthy (some s) = true := by simp [optTruthy, hs]
    simp only [handleWeekComment, ht, if_true]
    rw [removeWarningComment_clears cs hids hone]
    simp

/-- Witness for C1: a concrete PR with no comments and Week set. -/
theorem C1_invariant_witness :
    ((((handleWeekComment (some "Week 8") 3 []).2).any isWarningComment) = true) ↔
      (some "Week 8" : Option String) = none :=
  C1_invariant (some "Week 8") 3 [] (by simp [IdsDistinct]) (by decide) (by decide)

/-- C2 counterexample: with Week set and two warning comments present,
the first reconciliation run leaves a warning comment and the second one
removes it, so the warning-comment existence state after the second call
differs from the state after the first (and the second
`removeWarningComment` returns `true`, not `false`). -/
theorem C2_counterexample :
    (((handleWeekComment (some "Week 8") 7 twoWarnings).2).any isWarningComment = true) ∧
    (((handleWeekComment (some "Week 8") 8
        ((handleWeekComment (some "Week 8") 7 twoWarnings).2)).2).any isWarningComment
      = false) ∧
    ((removeWarningComment ((handleWeekComment (some "Week 8") 7 twoWarnings).2)).1
      = true) := by
  refine ⟨by decide, by decide, by decide⟩

/-- C2 (amended): reconciliation is idempotent — running
`handleWeekComment` twice with the same Week value and no intervening
external change leaves the comment state of the first run unchanged, never
holds more than one warning comment, and the second run's primitive is a
no-op returning `false` — provided the PR's comments carry distinct ids, at
most one warning comment exists initially, and a set week value is
non-empty. -/
theorem C2_idempotent (week : Option String) (i j : Nat)
    (cs : List IssueComment) (hids : IdsDistinct cs)
    (hone : cs.countP isWarningComment ≤ 1) (hw : week ≠ some "") :
    ((handleWeekComment week j ((handleWeekComment week i cs).2)).2 =
      (handleWeekComment week i cs).2) ∧
    (((handleWeekComment week i cs).2).countP isWarningComment ≤ 1) ∧
    (optTruthy week = false →
      (ensureWarningComment j ((handleWeekComment week i cs).2)).1 = false) ∧
    (optTruthy week = true →
      (removeWarningComment ((handleWeekComment week i cs).2)).1 = false) := by
  cases week with
  | none =>
    have h0 : optTruthy (none : Option String) = false := rfl
    simp only [handleWeekComment, h0, Bool.false_eq_true, if_false]
    have hany := ensureWarningComment_any i cs
    refine ⟨?_, ensureWarningComment_countP i cs hone, ?_, ?_⟩
    · rw [ensureWarningComment_of_any j _ hany]
    · intro _
      rw [ensureWarningComment_of_any j _ hany]
    · intro hc
      exact absurd hc (by simp [h0])
  | some s =>
    have hs : ¬(s = "") := fun h => hw (by rw [h])
    have ht : optTruthy (some s) = true := by simp [optTruthy, hs]
    simp only [handleWeekComment, ht, if_true]
    have hclear := removeWarningComment_clears cs hids hone
    refine ⟨?_, removeWarningComment_countP cs hids hone, ?_, ?_⟩
    · rw [removeWarningComment_of_none _ hclear]
    · intro hc
      exact absurd hc (by simp [ht])
    · intro _
      rw [removeWarningComment_of_none _ hclear]

/-- Witness for C2: a concrete PR with one warning comment and no Week. -/
theorem C2_idempotent_witness :
    ((handleWeekComment none 9 ((handleWeekComment none 4 []).2)).2 =
      (handleWeekComment none 4 []).2) ∧
    (((handleWeekComment none 4 []).2).countP isWarningComment ≤ 1) ∧
    (optTruthy none = false →
      (ensureWarningComment 9 ((handleWeekComment none 4 []).2)).1 = false) ∧
    (optTruthy none = true →
      (removeWarningComment ((handleWeekComment none 4 []).2)).1 = false) :=
  C2_idempotent none 4 9 [] (by simp [IdsDistinct]) (by decide) (by decide)

/-- C9: a single `removeWarningComment` call deletes exactly the first
warning comment in list order (and nothing else) when comment ids are
distinct — stated as equality with `List.eraseP isWarningComment` —
and consequently one reconciliation run on a PR with Week set and two
warning comments leaves exactly one warning comment present. -/
theorem C9_remove_at_most_one (cs : List IssueComment) (hids : IdsDistinct cs) :
    ((removeWarningComment cs).2 = cs.eraseP isWarningComment) ∧
    (((handleWeekComment (some "Week 8") 7 twoWarnings).2).countP isWarningComment
      = 1) :=
  ⟨removeWarningComment_eq_eraseP cs hids, by decide⟩

/-- Witness for C9: the two-warning list itself. -/
theorem C9_remove_at_most_one_witness :
    ((removeWarningComment twoWarnings).2 = twoWarnings.eraseP isWarningComment) ∧
    (((handleWeekComment (some "Week 8") 7 twoWarnings).2).countP isWarningComment
      = 1) :=
  C9_remove_at_most_one twoWarnings (by simp [IdsDistinct, twoWarnings])

/-- C10: `matchesWeek` accepts actual/filter pairs denoting different
weeks, because its third rule checks that the (current)-stripped, trimmed
actual value is a prefix of the filter. -/
theorem C10_cross_week_match :
    matchesWeek (some "Week 1(current)") "Week 10" = true ∧
    matchesWeek (some "Week 1") "Week 10" = true ∧
    ("Week 1(current)" : String) ≠ "Week 10" ∧ ("Week 1" : String) ≠ "Week 10" := by
  refine ⟨by decide, by decide, by decide, by decide⟩

/-- C4 counterexample: the claim's third disjunct has the prefix direction
backwards.  At actual `Week 1`, filter `Week 10`, the code returns `true`
(the stripped actual is a prefix of the filter) while the claimed rule
(the filter is a prefix of the stripped actual) yields `false`. -/
theorem C4_counterexample :
    matchesWeek (some "Week 1") "Week 10" = true ∧
    spec_matchesWeek (some "Week 1") "Week 10" = false := by
  refine ⟨by decide, by decide⟩

/-- C4 (amended): `matchesWeek(actual, filter)` is true iff actual is
non-null and non-empty and either equals the filter, or starts with
`filter + "("`, or its `(current)`-stripped trimmed value is a prefix of
the filter; with the claim's four concrete examples. -/
theorem C4_matchesWeek_rule :
    (∀ e : String, matchesWeek none e = false) ∧
    (∀ a e : String, matchesWeek (some a) e = true ↔
      (¬(a = "") ∧ (a = e ∨ jsStartsWith a (e ++ "(") = true ∨
        jsStartsWith e (stripCurrent a) = true))) ∧
    matchesWeek (some "Week 8") "Week 8" = true ∧
    matchesWeek (some "Week 8(current)") "Week 8" = true ∧
    matchesWeek (some "Week 9") "Week 8" = false ∧
    matchesWeek none "Week 8" = false := by
  refine ⟨fun e => rfl, ?_, by decide, by decide, by decide, rfl⟩
  intro a e
  simp only [matchesWeek]
  split_ifs with h1 h2 h3 h4 <;> simp_all

/-- Witness for C4: the amended rule instantiated at the exact-match
example. -/
theorem C4_matchesWeek_rule_witness :
    matchesWeek (some "Week 8") "Week 8" = true ↔
      (¬(("Week 8" : String) = "") ∧ (("Week 8" : String) = "Week 8" ∨
        jsStartsWith "Week 8" ("Week 8" ++ "(") = true ∨
        jsStartsWith "Week 8" (stripCurrent "Week 8") = true)) :=
  C4_matchesWeek_rule.2.1 "Week 8" "Week 8"

/-- A board item carrying two iteration `Week` values (a PR attached with
conflicting field values). -/
def dupWeekItems : List ProjectItem :=
  [⟨[⟨"ProjectV2ItemFieldIterationValue", some "Week", some "Week 1", none⟩,
     ⟨"ProjectV2ItemFieldIterationValue", some "Week", some "Week 2", none⟩]⟩]

/-- C6 counterexample: with two matching `Week` iteration values, the loop
of `getProjectFields` overwrites on every match, so the returned week is
the title of the last match, not the first. -/
theorem C6_counterexample :
    getProjectFields dupWeekItems = (some "Week 2", none) ∧
    firstMatchWeek dupWeekItems = some "Week 1" ∧
    (some "Week 2" : Option String) ≠ some "Week 1" := by
  refine ⟨by decide, by decide, by decide⟩

/-- C6 (amended): among all field values across a PR's board-item
attachments, the last iteration value whose field name is exactly `Week`
supplies the returned week, and the last single-select value whose field
name is exactly `Status` supplies the returned status; absence of any
matching field yields null rather than an error. -/
theorem C6_field_extraction (items : List ProjectItem) :
    getProjectFields items = (lastMatchWeek items, lastMatchStatus items) := by
  have hf := getProjectFields_fold_fst items (none, none)
  have hs := getProjectFields_fold_snd items (none, none)
  apply Prod.ext
  · show (items.foldl (fun a it => it.fieldValues.foldl projectFieldStep a)
      (none, none)).1 = _
    rw [hf]
    show _ = (((items.map ProjectItem.fieldValues).flatten).reverse.find?
      isWeekIterField).bind FieldValue.title
    cases hfind :
        ((items.map ProjectItem.fieldValues).flatten).reverse.find? isWeekIterField with
    | none => rfl
    | some g => rfl
  · show (items.foldl (fun a it => it.fieldValues.foldl projectFieldStep a)
      (none, none)).2 = _
    rw [hs]
    show _ = (((items.map ProjectItem.fieldValues).flatten).reverse.find?
      isStatusSelField).bind FieldValue.name
    cases hfind :
        ((items.map ProjectItem.fieldValues).flatten).reverse.find? isStatusSelField with
    | none => rfl
    | some g => rfl

/-- The observation sequence [unknown, unknown, clean], with distinct head
SHAs so that the SHA used is visibly the one captured at the clean check. -/
def obsUUC : Nat → PrDetails := fun k =>
  if k = 0 then ⟨none, none, "sha0"⟩
  else if k = 1 then ⟨none, none, "sha1"⟩
  else ⟨some true, some "clean", "sha2"⟩

/-- C3: the mergeability polling loop performs at most 3 retries; on
[unknown, unknown, clean] it performs exactly 2 retries and succeeds with
the head SHA of the successful check; `mergeable=false` is terminal with
reason `not mergeable` and zero retries; `mergeable=null` is retryable with
reason `mergeability unknown`; and for `mergeable=true` with a present,
non-empty `mergeable_state` other than `clean`, the state is retryable
exactly when it is `unknown` or `behind`. -/
theorem C3_merge_polling :
    (∀ obs : Nat → PrDetails, (mergePoll obs).2 ≤ 3) ∧
    (mergePoll obsUUC =
      ({ mergeable := true, reason := none, retryable := false,
         sha := some "sha2" }, 2)) ∧
    (∀ pd : PrDetails, pd.mergeable = some false →
      getMergeableState pd =
        { mergeable := false, reason := some "not mergeable", retryable := false,
          sha := none } ∧
      (mergePoll (fun _ => pd)).2 = 0) ∧
    (∀ pd : PrDetails, pd.mergeable = none →
      (getMergeableState pd).reason = some "mergeability unknown" ∧
      (getMergeableState pd).retryable = true) ∧
    (∀ (pd : PrDetails) (s : String), pd.mergeable = some true →
      pd.mergeable_state = some s → ¬(s = "clean") → ¬(s = "") →
      (getMergeableState pd).retryable = (s = "unknown" || s = "behind")) := by
  refine ⟨fun obs => pollGo_le obs _ 0 3, by decide, ?_, ?_, ?_⟩
  · intro pd h
    refine ⟨by simp [getMergeableState, h], ?_⟩
    simp [mergePoll, pollGo, getMergeableState, h]
  · intro pd h
    simp [getMergeableState, h]
  · intro pd s h1 h2 h3 h4
    simp [getMergeableState, h1, h2, h3, h4]

/-- Witness for C3: the universally quantified conjuncts instantiated at
concrete observations. -/
theorem C3_merge_polling_witness :
    ((mergePoll (fun _ => ⟨some false, some "dirty", "s"⟩)).2 ≤ 3) ∧
    (getMergeableState ⟨some false, some "dirty", "s"⟩ =
      { mergeable := false, reason := some "not mergeable", retryable := false,
        sha := none }) ∧
    ((getMergeableState ⟨none, none, "s"⟩).retryable = true) ∧
    ((getMergeableState ⟨some true, some "behind", "s"⟩).retryable =
      (("behind" : String) = "unknown" || ("behind" : String) = "behind")) :=
  ⟨C3_merge_polling.1 _,
   (C3_merge_polling.2.2.1 _ rfl).1,
   (C3_merge_polling.2.2.2.1 _ rfl).2,
   C3_merge_polling.2.2.2.2 _ "behind" rfl rfl (by decide) (by decide)⟩

/-- The C5 fixture: three open non-maintenance PRs, PR 1970 without Week,
PR 1969 with Week `Week 8` and one stale warning comment, PR 1971 with
Week `Week 9` and no comments. -/
def cwFixture : List CwPr :=
  [⟨1970, [], none, []⟩,
   ⟨1969, [], some "Week 8", [⟨101, "Bot", WARNING_COMMENT_BODY⟩]⟩,
   ⟨1971, [], some "Week 9", []⟩]

/-- C5: on the claim's fixture the current handler answers `checked = 3`
and `commented = 1`, but `deleted = 0` — never `1` — and reports PR 1969 as
`{week: "Week 8", commented: false}` with no `deleted` flag, even though
the run did delete the stale warning comment (PR 1969's final comment list
is empty).  `deletedCount` is initialised to 0 and never incremented, and
no result entry ever carries `deleted`, contradicting the claim and the
repository's own README. -/
theorem C5_checkWeeks_eval :
    checkWeeks (some "DaleStudy") (some "leetcode-study") (fun n => 1000 + n)
      cwFixture =
    .ok (⟨3, 3, 1, 0,
      [⟨1970, none, true, none⟩,
       ⟨1969, some "Week 8", false, none⟩,
       ⟨1971, some "Week 9", false, none⟩]⟩,
      [⟨1970, [], none, [mkWarningComment 2970]⟩,
       ⟨1969, [], some "Week 8", []⟩,
       ⟨1971, [], some "Week 9", []⟩]) := by
  rfl

/-- A bulk-action world with no open PRs (the upstream answers are never
consulted before payload validation). -/
def emptyBulkWorld : BulkWorld :=
  ⟨[], fun _ => (none, none), fun _ => false, fun _ => false,
    fun _ _ => ⟨none, none, ""⟩, fun _ => none, fun _ => false⟩

/-- C7 counterexample: a `POST /approve-prs` body lacking `week` IS
rejected with the 400 week error — `approvePrs` shares
`parsePrActionPayload`, which requires `week` unconditionally — contrary to
the claim that only merge requires it. -/
theorem C7_counterexample :
    approvePrs { repo_name := some "leetcode-study" } emptyBulkWorld =
      .error (400, "Missing required field: week (e.g., 'Week 8')") := by
  rfl

/-- C7 (amended): the `week` body field is mandatory for both bulk
actions: for every request body with a truthy `repo_name` and no (or
empty) `week`, the shared parser rejects with the 400 week error and both
`approvePrs` and `mergePrs` return exactly that rejection. -/
theorem C7_week_required (b : ReqBody) (w : BulkWorld)
    (hrn : optTruthy b.repo_name = true) (hwk : optTruthy b.week = false) :
    parsePrActionPayload b =
      .error (400, "Missing required field: week (e.g., 'Week 8')") ∧
    approvePrs b w =
      .error (400, "Missing required field: week (e.g., 'Week 8')") ∧
    mergePrs b w =
      .error (400, "Missing required field: week (e.g., 'Week 8')") := by
  have hp : parsePrActionPayload b =
      .error (400, "Missing required field: week (e.g., 'Week 8')") := by
    cases hb : b.repo_name with
    | none =>
      rw [hb] at hrn
      simp [optTruthy] at hrn
    | some rn =>
      rw [hb] at hrn
      have hrn1 : ¬(rn = "") := by simpa [optTruthy] using hrn
      have h1 : jsOrNull (some rn) = some rn := by
        simp [jsOrNull, optTruthy, hrn1]
      have h2 : jsOrNull b.week = none := by
        simp [jsOrNull, hwk]
      simp [parsePrActionPayload, hb, h1, h2]
  refine ⟨hp, ?_, ?_⟩
  · simp [approvePrs, hp]
  · simp [mergePrs, hp]

/-- Witness for C7: the concrete approve body without `week`. -/
theorem C7_week_required_witness :
    parsePrActionPayload ⟨none, some "leetcode-study", none, none, none⟩ =
      .error (400, "Missing required field: week (e.g., 'Week 8')") ∧
    approvePrs ⟨none, some "leetcode-study", none, none, none⟩ emptyBulkWorld =
      .error (400, "Missing required field: week (e.g., 'Week 8')") ∧
    mergePrs ⟨none, some "leetcode-study", none, none, none⟩ emptyBulkWorld =
      .error (400, "Missing required field: week (e.g., 'Week 8')") :=
  C7_week_required ⟨none, some "leetcode-study", none, none, none⟩
    emptyBulkWorld (by decide) (by decide)

/-- A webhook world with no PR info, no comments and no reviews. -/
def emptyHookWorld : HookWorld :=
  ⟨fun _ => none, fun _ => none, fun _ => none, fun _ => [], fun _ => 0,
    fun _ => false, fun _ => 0⟩

/-- C8 (amended): an event whose organization login is not `DaleStudy` is
acknowledged as ignored with the world untouched, regardless of event type
and payload; and an event carrying a NON-EMPTY repository name different
from `leetcode-study` is likewise ignored with the world untouched — the
repository check is skipped when the payload lacks a repository field or
its name is the empty string (the code tests JS truthiness of
`payload.repository?.name`). -/
theorem C8_scope_filter :
    (∀ (et : String) (p : WPayload) (key : Bool) (w : HookWorld),
      validateOrganization p.organization_login = false →
      handleWebhook et p key w =
        ({ status := 200, message := "Ignored: not DaleStudy organization" }, w)) ∧
    (∀ (et : String) (p : WPayload) (key : Bool) (w : HookWorld) (n : String),
      validateOrganization p.organization_login = true →
      p.repository.map RepoInfo.name = some n → ¬(n = "") → ¬(n = ALLOWED_REPO) →
      handleWebhook et p key w =
        ({ status := 200, message := "Ignored: " ++ n }, w)) := by
  constructor
  · intro et p key w horg
    simp [handleWebhook, horg]
  · intro et p key w n horg hname hne1 hne2
    simp [handleWebhook, horg, hname, hne1, hne2]

/-- Witness for C8: the amended filter at a foreign organization and at a
foreign repository. -/
theorem C8_scope_filter_witness :
    (handleWebhook "pull_request" { organization_login := some "OtherOrg" }
        false emptyHookWorld =
      ({ status := 200, message := "Ignored: not DaleStudy organization" },
        emptyHookWorld)) ∧
    (handleWebhook "pull_request"
        { organization_login := some "DaleStudy",
          repository := some ⟨"other-repo", "DaleStudy"⟩ } false emptyHookWorld =
      ({ status := 200, message := "Ignored: other-repo" }, emptyHookWorld)) :=
  ⟨C8_scope_filter.1 "pull_request" _ false emptyHookWorld (by decide),
   C8_scope_filter.2 "pull_request" _ false emptyHookWorld "other-repo"
     (by decide) rfl (by decide) (by decide)⟩

/-- The C8 counterexample payload: allowed organization, a repository field
whose `name` is the empty string (hence different from the allowed
repository), and an opened PR without maintenance label. -/
def emptyNamePayload : WPayload :=
  { organization_login := some "DaleStudy",
    repository := some ⟨"", "DaleStudy"⟩,
    action := some "opened",
    pull_request := some ⟨1970, []⟩ }

/-- C8 counterexample: a payload carrying a repository name (the empty
string) that differs from `leetcode-study` is NOT ignored: the repository
check is skipped on any falsy name, the PR-opened path runs, and
reconciliation acts (a warning comment is created on PR 1970). -/
theorem C8_counterexample :
    ((handleWebhook "pull_request" emptyNamePayload false emptyHookWorld).1.message
      = "Processed") ∧
    (emptyNamePayload.repository.map RepoInfo.name = some "") ∧
    ¬(("" : String) = ALLOWED_REPO) ∧
    (((handleWebhook "pull_request" emptyNamePayload false
        emptyHookWorld).2.comments 1970).any isWarningComment = true) := by
  refine ⟨rfl, rfl, by decide, by decide⟩
